import Mathlib

/-!
# Verification of the MEDIFLOW Inventory Alert & Reorder Engine

A shallow embedding of the computational core of the MEDIFLOW pharmacy
inventory tracker: the reorder-point utilities (`calculateAverageDailyUsage`,
`calculateReorderPoint`, `isLowStock`, `getStockStatus`,
`calculateReorderQuantity`) and the cross-branch alert generator
(`generateBranchAlerts` from `AlertsView.tsx`).

Modelling choices:
* JavaScript numbers are modelled as exact rationals (`ℚ`); `Math.ceil` and
  `Math.floor` become `Int.ceil` / `Int.floor`.
* Calendar dates are modelled by their parsed whole-day offsets relative to
  the evaluation instant "now": a batch carries `daysElapsed`
  (= `Math.floor((now − dateReceived) / msPerDay)`) and `daysUntilExpiry`
  (= `Math.floor((expirationDate − now) / msPerDay)`).  An `expirationDate`
  string that fails to parse makes that floor `NaN`; `daysUntilExpiry = none`
  models this, and the dedicated comparison helpers below return `false` on
  `none`, exactly as every JS comparison with `NaN` is false.
* Descriptive string fields of a batch (`id`, `drugName`, `dosage`, …) and the
  branch display metadata copied onto alerts (`branchId`, `branchName`,
  `userName`) influence no computed value and carry no claim; they are omitted
  from the record types.
* TypeScript default parameters (`config = DEFAULT_REORDER_CONFIG`,
  the omitted `daysSinceReceived`) are passed explicitly at each call site,
  with the same values the source call sites receive.
-/

namespace Mediflow

/-- One inventory batch (`InventoryBatch` in `types/inventory.ts`), restricted
to the fields the engine computes with; the two date strings are represented
by their parsed day offsets (see the module docstring). -/
structure InventoryBatch where
  beginningInventory : ℚ
  quantityReceived : ℚ
  quantityDispensed : ℚ
  /-- Models `Math.floor((now − dateReceived) / (1000·60·60·24))`. -/
  daysElapsed : ℤ
  /-- Models `Math.floor((expirationDate − now) / (1000·60·60·24))`; `none` = `NaN`
  (unparseable `expirationDate`). -/
  daysUntilExpiry : Option ℤ
  deriving DecidableEq, Repr

/-- The `ReorderPointConfig` record from `reorderPoint.ts`. -/
structure ReorderPointConfig where
  leadTimeDays : ℚ
  safetyStockPercentage : ℚ
  minimumThreshold : ℚ
  deriving DecidableEq, Repr

/-- The `DEFAULT_REORDER_CONFIG` value: 14-day lead time, 30% safety buffer,
minimum 20 units. -/
def DEFAULT_REORDER_CONFIG : ReorderPointConfig :=
  { leadTimeDays := 14, safetyStockPercentage := 3/10, minimumThreshold := 20 }

/-- The function `calculateAverageDailyUsage(batch, daysSinceReceived?)`.  The source
computes `days = daysSinceReceived || Math.floor(...)`: a supplied value of
`0` is falsy in JS and falls back to the computed elapsed days, which the
`match` reproduces.  Every call site in the repository omits the optional
argument (passes `none` here). -/
def calculateAverageDailyUsage (batch : InventoryBatch)
    (daysSinceReceived : Option ℚ) : ℚ :=
  let totalDispensed := batch.quantityDispensed
  if totalDispensed = 0 then 0
  else
    let days : ℚ :=
      match daysSinceReceived with
      | some d => if d = 0 then (batch.daysElapsed : ℚ) else d
      | none => (batch.daysElapsed : ℚ)
    if days ≤ 0 then 0
    else totalDispensed / days

/-- The function `calculateReorderPoint(batch, config)`. -/
def calculateReorderPoint (batch : InventoryBatch)
    (config : ReorderPointConfig) : ℚ :=
  let avgDailyUsage := calculateAverageDailyUsage batch none
  if avgDailyUsage = 0 then config.minimumThreshold
  else
    let baseReorderPoint := avgDailyUsage * config.leadTimeDays
    let safetyStock := baseReorderPoint * config.safetyStockPercentage
    let calculatedReorderPoint : ℚ := ((⌈baseReorderPoint + safetyStock⌉ : ℤ) : ℚ)
    max calculatedReorderPoint config.minimumThreshold

/-- The predicate `isLowStock(batch, config)`: short-circuits to `false` on
`currentStock ≤ 0` before computing the reorder point. -/
def isLowStock (batch : InventoryBatch) (config : ReorderPointConfig) : Bool :=
  let currentStock :=
    batch.beginningInventory + batch.quantityReceived - batch.quantityDispensed
  if currentStock ≤ 0 then false
  else decide (currentStock ≤ calculateReorderPoint batch config)

/-- The record returned by `getStockStatus`. -/
structure StockStatus where
  currentStock : ℚ
  reorderPoint : ℚ
  isLowStock : Bool
  isOutOfStock : Bool
  avgDailyUsage : ℚ
  daysOfStockRemaining : ℚ
  deriving DecidableEq, Repr

/-- The function `getStockStatus(batch, config)`. -/
def getStockStatus (batch : InventoryBatch)
    (config : ReorderPointConfig) : StockStatus :=
  let currentStock :=
    batch.beginningInventory + batch.quantityReceived - batch.quantityDispensed
  let reorderPoint := calculateReorderPoint batch config
  let avgDailyUsage := calculateAverageDailyUsage batch none
  let daysOfStockRemaining : ℚ :=
    if 0 < avgDailyUsage then ((⌊currentStock / avgDailyUsage⌋ : ℤ) : ℚ)
    else if 0 < currentStock then 999 else 0
  { currentStock := currentStock
    reorderPoint := reorderPoint
    isLowStock := decide (0 < currentStock) && decide (currentStock ≤ reorderPoint)
    isOutOfStock := decide (currentStock = 0)
    avgDailyUsage := avgDailyUsage
    daysOfStockRemaining := daysOfStockRemaining }

/-- The function `calculateReorderQuantity(batch, config)`. -/
def calculateReorderQuantity (batch : InventoryBatch)
    (config : ReorderPointConfig) : ℚ :=
  let status := getStockStatus batch config
  if !status.isLowStock && !status.isOutOfStock then 0
  else
    let avgDailyUsage := if 0 < status.avgDailyUsage then status.avgDailyUsage else 1
    let orderQuantity : ℚ :=
      ((⌈avgDailyUsage * config.leadTimeDays * 2 +
          avgDailyUsage * config.leadTimeDays * config.safetyStockPercentage⌉ : ℤ) : ℚ)
    max orderQuantity config.minimumThreshold

/-! ## The alert generator (`generateBranchAlerts` in `AlertsView.tsx`) -/

inductive AlertType where
  | expired
  | critical
  | nearExpiry
  | lowStock
  deriving DecidableEq, Repr

inductive Severity where
  | high
  | medium
  | low
  deriving DecidableEq, Repr

/-- Comparison `daysUntilExpiry < c` on a possibly-NaN JS number: false on `NaN`. -/
def nanLt : Option ℤ → ℤ → Bool
  | none, _ => false
  | some d, c => decide (d < c)

/-- Comparison `daysUntilExpiry ≤ c` on a possibly-NaN JS number: false on `NaN`. -/
def nanLe : Option ℤ → ℤ → Bool
  | none, _ => false
  | some d, c => decide (d ≤ c)

/-- Comparison `daysUntilExpiry ≥ c` on a possibly-NaN JS number: false on `NaN`. -/
def nanGe : Option ℤ → ℤ → Bool
  | none, _ => false
  | some d, c => decide (c ≤ d)

/-- Comparison `daysUntilExpiry > c` on a possibly-NaN JS number: false on `NaN`. -/
def nanGt : Option ℤ → ℤ → Bool
  | none, _ => false
  | some d, c => decide (c < d)

/-- A `BranchAlert`, restricted to the computed fields (branch display
metadata omitted).  `daysUntilExpiry` is set on expiry-type alerts and absent
(`none`) on low-stock alerts, as in the source. -/
structure BranchAlert where
  item : InventoryBatch
  alertType : AlertType
  severity : Severity
  daysUntilExpiry : Option ℤ
  stockLevel : ℚ
  deriving DecidableEq, Repr

/-- The body of the inner `branch.inventory.forEach((item) => …)` loop of
`generateBranchAlerts`: the alerts pushed for one batch, in push order
(expiry alert first, then the low-stock alert).  `isLowStock` and
`getStockStatus` are called without a config argument in the source, hence
with `DEFAULT_REORDER_CONFIG`. -/
def alertsForItem (item : InventoryBatch) : List BranchAlert :=
  let stockOnHand :=
    item.beginningInventory + item.quantityReceived - item.quantityDispensed
  let d := item.daysUntilExpiry
  let expiryAlerts : List BranchAlert :=
    if nanLt d 0 then
      [{ item := item, alertType := AlertType.expired, severity := Severity.high,
         daysUntilExpiry := d, stockLevel := stockOnHand }]
    else if nanLe d 30 && nanGe d 0 then
      [{ item := item, alertType := AlertType.critical, severity := Severity.high,
         daysUntilExpiry := d, stockLevel := stockOnHand }]
    else if nanGt d 30 && nanLe d 180 then
      [{ item := item, alertType := AlertType.nearExpiry, severity := Severity.medium,
         daysUntilExpiry := d, stockLevel := stockOnHand }]
    else []
  let stockAlerts : List BranchAlert :=
    if decide (0 < stockOnHand) && isLowStock item DEFAULT_REORDER_CONFIG then
      let stockStatus := getStockStatus item DEFAULT_REORDER_CONFIG
      [{ item := item, alertType := AlertType.lowStock,
         severity :=
           if stockOnHand < stockStatus.reorderPoint * (1/2) then Severity.high
           else Severity.medium,
         daysUntilExpiry := none, stockLevel := stockOnHand }]
    else []
  expiryAlerts ++ stockAlerts

/-- The rank map `severityOrder = { high: 0, medium: 1, low: 2 }`. -/
def severityOrder : Severity → ℕ
  | Severity.high => 0
  | Severity.medium => 1
  | Severity.low => 2

/-- The rank map `typeOrder = { expired: 0, critical: 1, lowStock: 2, nearExpiry: 3 }`. -/
def typeOrder : AlertType → ℕ
  | AlertType.expired => 0
  | AlertType.critical => 1
  | AlertType.lowStock => 2
  | AlertType.nearExpiry => 3

/-- The sort comparator of `generateBranchAlerts` as an `≤`-style Boolean
relation: `a` may precede `b` iff the comparator returns `≤ 0` on `(a, b)`,
i.e. severity rank is smaller, or equal with type rank `≤`. -/
def alertLE (a b : BranchAlert) : Bool :=
  decide (severityOrder a.severity < severityOrder b.severity) ||
    (decide (severityOrder a.severity = severityOrder b.severity) &&
      decide (typeOrder a.alertType ≤ typeOrder b.alertType))

/-- The call `alerts.sort(comparator)`: JS `Array.prototype.sort` is stable, so it is
modelled by the (stable) `List.mergeSort` under `alertLE`. -/
def sortAlerts (alerts : List BranchAlert) : List BranchAlert :=
  alerts.mergeSort alertLE

/-- The function `generateBranchAlerts(branchData)`: collect the alerts of every batch of
every branch in traversal order, then sort.  Branch display metadata is
omitted, so a branch is just its inventory list. -/
def generateBranchAlerts (branchData : List (List InventoryBatch)) : List BranchAlert :=
  sortAlerts ((branchData.map (fun inventory => (inventory.map alertsForItem).flatten)).flatten)

/-- The expiry-type alerts (everything except `lowStock`) among one batch's
generated alerts, projected to the fields the expiry rules determine:
alert type, severity, and the recorded days-until-expiry. -/
def expiryAlertsOf (item : InventoryBatch) : List (AlertType × Severity × Option ℤ) :=
  ((alertsForItem item).filter
      (fun a => decide (a.alertType ≠ AlertType.lowStock))).map
    (fun a => (a.alertType, a.severity, a.daysUntilExpiry))

/-- The spec's "no history, low stock" scenario batch: 5 units on hand,
never dispensed, received 10 days ago, expiring 1 year (365 days) out. -/
def noHistoryLowStockBatch : InventoryBatch :=
  { beginningInventory := 5, quantityReceived := 0, quantityDispensed := 0,
    daysElapsed := 10, daysUntilExpiry := some 365 }

/-- A batch identical to the scenario batch except that its
`expirationDate` fails to parse (`daysUntilExpiry` is `NaN`). -/
def nanExpiryBatch : InventoryBatch :=
  { beginningInventory := 5, quantityReceived := 0, quantityDispensed := 0,
    daysElapsed := 10, daysUntilExpiry := none }

/-- A sort-input alert with the given type and severity (the remaining
fields play no role in the comparator). -/
def sortExampleAlert (t : AlertType) (s : Severity) : BranchAlert :=
  { item := noHistoryLowStockBatch, alertType := t, severity := s,
    daysUntilExpiry := none, stockLevel := 0 }

/-! ## Helper lemmas -/

lemma averageDailyUsage_of_dispensed_eq_zero (b : InventoryBatch)
    (h : b.quantityDispensed = 0) : calculateAverageDailyUsage b none = 0 := by
  simp [calculateAverageDailyUsage, h]

lemma averageDailyUsage_eq_div (b : InventoryBatch)
    (hd : b.quantityDispensed ≠ 0) (he : 0 < b.daysElapsed) :
    calculateAverageDailyUsage b none = b.quantityDispensed / (b.daysElapsed : ℚ) := by
  have hnle : ¬ ((b.daysElapsed : ℚ) ≤ 0) := by
    push_neg
    exact_mod_cast he
  simp [calculateAverageDailyUsage, hd, hnle]

lemma averageDailyUsage_pos (b : InventoryBatch)
    (hd : 0 < b.quantityDispensed) (he : 0 < b.daysElapsed) :
    0 < calculateAverageDailyUsage b none := by
  rw [averageDailyUsage_eq_div b (ne_of_gt hd) he]
  exact div_pos hd (by exact_mod_cast he)

lemma calculateReorderPoint_of_usage_ne_zero (b : InventoryBatch)
    (cfg : ReorderPointConfig) (h : calculateAverageDailyUsage b none ≠ 0) :
    calculateReorderPoint b cfg =
      max ((⌈calculateAverageDailyUsage b none * cfg.leadTimeDays +
          calculateAverageDailyUsage b none * cfg.leadTimeDays *
            cfg.safetyStockPercentage⌉ : ℤ) : ℚ)
        cfg.minimumThreshold := by
  simp only [calculateReorderPoint, if_neg h]

@[simp] lemma nanLt_none (c : ℤ) : nanLt none c = false := rfl

@[simp] lemma nanLt_some (d c : ℤ) : nanLt (some d) c = decide (d < c) := rfl

@[simp] lemma nanLe_none (c : ℤ) : nanLe none c = false := rfl

@[simp] lemma nanLe_some (d c : ℤ) : nanLe (some d) c = decide (d ≤ c) := rfl

@[simp] lemma nanGe_none (c : ℤ) : nanGe none c = false := rfl

@[simp] lemma nanGe_some (d c : ℤ) : nanGe (some d) c = decide (c ≤ d) := rfl

@[simp] lemma nanGt_none (c : ℤ) : nanGt none c = false := rfl

@[simp] lemma nanGt_some (d c : ℤ) : nanGt (some d) c = decide (c < d) := rfl

/-- Closed-form characterization of the expiry alerts of one batch. -/
lemma expiryAlertsOf_eq (item : InventoryBatch) :
    expiryAlertsOf item =
      match item.daysUntilExpiry with
      | none => []
      | some d =>
        if d < 0 then [(AlertType.expired, Severity.high, some d)]
        else if d ≤ 30 then [(AlertType.critical, Severity.high, some d)]
        else if d ≤ 180 then [(AlertType.nearExpiry, Severity.medium, some d)]
        else [] := by
  have hstock : ∀ (c : Prop) (inst : Decidable c) (al : BranchAlert),
      al.alertType = AlertType.lowStock →
      (if c then [al] else []).filter
          (fun a => decide (a.alertType ≠ AlertType.lowStock)) = [] := by
    intro c inst al hal
    split <;> simp [hal]
  rcases h : item.daysUntilExpiry with _ | d
  · simp only [expiryAlertsOf, alertsForItem, h, nanLt_none, nanLe_none, nanGe_none,
      nanGt_none, Bool.false_and, if_neg Bool.false_ne_true, List.nil_append]
    rw [hstock _ _ _ rfl]
    rfl
  · simp only [expiryAlertsOf, alertsForItem, h, nanLt_some, nanLe_some, nanGe_some,
      nanGt_some, List.filter_append, List.map_append]
    rw [hstock _ _ _ rfl, List.map_nil, List.append_nil]
    by_cases h1 : d < 0
    · rw [if_pos (by simpa using h1), if_pos h1]
      simp
    · rw [if_neg (by simpa using h1), if_neg h1]
      by_cases h2 : d ≤ 30
      · have h0 : (0 : ℤ) ≤ d := le_of_not_lt h1
        rw [if_pos (by simp [h2, h0]), if_pos h2]
        simp
      · rw [if_neg (by simp [h2]), if_neg h2]
        by_cases h3 : d ≤ 180
        · have h30 : (30 : ℤ) < d := lt_of_not_le h2
          rw [if_pos (by simp [h3, h30]), if_pos h3]
          simp
        · rw [if_neg (by simp [h3]), if_neg h3]
          rfl

/-- Every alert generated for a batch records that batch in its `item`
field. -/
lemma item_of_mem_alertsForItem (item : InventoryBatch) (a : BranchAlert)
    (ha : a ∈ alertsForItem item) : a.item = item := by
  rw [alertsForItem] at ha
  rcases List.mem_append.mp ha with h | h
  · split at h <;> [skip; split at h] <;> [skip; skip; split at h] <;>
      simp_all
  · split at h <;> simp_all

/-- A batch whose `daysUntilExpiry` is `NaN` contributes only (possibly) a
low-stock alert. -/
lemma alertType_of_mem_alertsForItem_none (item : InventoryBatch)
    (hnan : item.daysUntilExpiry = none) (a : BranchAlert)
    (ha : a ∈ alertsForItem item) : a.alertType = AlertType.lowStock := by
  rw [alertsForItem, hnan] at ha
  simp only [nanLt_none, nanLe_none, nanGe_none, nanGt_none, Bool.false_and,
    if_neg Bool.false_ne_true, List.nil_append] at ha
  split at ha <;> simp_all

lemma getStockStatus_reorderPoint (b : InventoryBatch) (cfg : ReorderPointConfig) :
    (getStockStatus b cfg).reorderPoint = calculateReorderPoint b cfg := rfl

lemma isLowStock_eq_true_iff (b : InventoryBatch) (cfg : ReorderPointConfig) :
    isLowStock b cfg = true ↔
      0 < b.beginningInventory + b.quantityReceived - b.quantityDispensed ∧
        b.beginningInventory + b.quantityReceived - b.quantityDispensed ≤
          calculateReorderPoint b cfg := by
  rw [isLowStock]
  by_cases h : b.beginningInventory + b.quantityReceived - b.quantityDispensed ≤ 0
  · rw [if_pos h]
    simp only [Bool.false_eq_true, false_iff, not_and]
    intro h0
    exact absurd h0 (not_lt.mpr h)
  · rw [if_neg h]
    simp [not_le.mp h]

lemma alertLE_trans : ∀ (a b c : BranchAlert), alertLE a b → alertLE b c → alertLE a c := by
  intro a b c hab hbc
  simp only [alertLE, Bool.or_eq_true, Bool.and_eq_true, decide_eq_true_eq] at *
  omega

lemma alertLE_total : ∀ (a b : BranchAlert), alertLE a b || alertLE b a := by
  intro a b
  simp only [alertLE, Bool.or_eq_true, Bool.and_eq_true, decide_eq_true_eq]
  omega

/-! ## Claims -/

/-- Claim C1. For every batch and every `ReorderPointConfig`,
`calculateReorderPoint` returns `config.minimumThreshold` when the batch's
average daily usage is `0`, and otherwise returns
`max(ceil(usage × leadTimeDays + (usage × leadTimeDays) × safetyStockPercentage),
config.minimumThreshold)`; in both cases the result is
`≥ config.minimumThreshold`. -/
theorem C1_reorderPoint_formula_and_floor (b : InventoryBatch)
    (cfg : ReorderPointConfig) :
    calculateReorderPoint b cfg =
      (if calculateAverageDailyUsage b none = 0 then cfg.minimumThreshold
       else
         max ((⌈calculateAverageDailyUsage b none * cfg.leadTimeDays +
             calculateAverageDailyUsage b none * cfg.leadTimeDays *
               cfg.safetyStockPercentage⌉ : ℤ) : ℚ)
           cfg.minimumThreshold) ∧
    cfg.minimumThreshold ≤ calculateReorderPoint b cfg := by
  constructor
  · rfl
  · rw [calculateReorderPoint]
    split
    · exact le_rfl
    · exact le_max_right _ _

/-- Claim C6. For every batch, the average-daily-usage estimator returns `0`
when `quantityDispensed = 0`; otherwise, with `daysElapsed` the whole-day
floor of (as-of date − `dateReceived`), it returns `0` when
`daysElapsed ≤ 0` and the exact (unrounded) quotient
`quantityDispensed / daysElapsed` when `daysElapsed > 0`. -/
theorem C6_averageDailyUsage_cases (b : InventoryBatch) :
    (b.quantityDispensed = 0 → calculateAverageDailyUsage b none = 0) ∧
    (b.quantityDispensed ≠ 0 → b.daysElapsed ≤ 0 →
      calculateAverageDailyUsage b none = 0) ∧
    (b.quantityDispensed ≠ 0 → 0 < b.daysElapsed →
      calculateAverageDailyUsage b none = b.quantityDispensed / (b.daysElapsed : ℚ)) := by
  refine ⟨fun h => ?_, fun h hd => ?_, fun h hd => ?_⟩
  · simp [calculateAverageDailyUsage, h]
  · have : ((b.daysElapsed : ℚ) ≤ 0) := by exact_mod_cast hd
    simp [calculateAverageDailyUsage, h, this]
  · have : ¬ ((b.daysElapsed : ℚ) ≤ 0) := by
      push_neg
      exact_mod_cast hd
    simp [calculateAverageDailyUsage, h, this]

/-- Witness for C6: a batch with 7 units dispensed over 2 elapsed days has an
average daily usage of exactly 7/2. -/
theorem C6_averageDailyUsage_cases_witness :
    calculateAverageDailyUsage
      { beginningInventory := 10, quantityReceived := 0, quantityDispensed := 7,
        daysElapsed := 2, daysUntilExpiry := some 365 } none = 7 / 2 :=
  (C6_averageDailyUsage_cases _).2.2 (by norm_num) (by decide)

/-- Claim C10. For every batch and every config, the standalone predicate
`isLowStock` returns exactly the same boolean as the `isLowStock` field of
`getStockStatus`: the two independently coded low-stock computations always
agree. -/
theorem C10_isLowStock_agrees_with_getStockStatus (b : InventoryBatch)
    (cfg : ReorderPointConfig) :
    isLowStock b cfg = (getStockStatus b cfg).isLowStock := by
  simp only [isLowStock, getStockStatus]
  by_cases h : b.beginningInventory + b.quantityReceived - b.quantityDispensed ≤ 0
  · simp only [if_pos h, decide_eq_false (not_lt.mpr h), Bool.false_and]
  · simp only [if_neg h, decide_eq_true (not_le.mp h), Bool.true_and]

/-- Claim C2. For every batch and every config, the classification of
`getStockStatus` satisfies: `isOutOfStock` holds exactly when the current
stock is `0`; `isLowStock` holds exactly when the current stock is positive
and at most the reorder point; the two are never both true; a batch with
current stock `≤ 0` is never low-stock; and a batch with negative current
stock is neither low-stock nor out-of-stock. -/
theorem C2_stock_classification (b : InventoryBatch) (cfg : ReorderPointConfig) :
    ((getStockStatus b cfg).isOutOfStock = true ↔
      b.beginningInventory + b.quantityReceived - b.quantityDispensed = 0) ∧
    ((getStockStatus b cfg).isLowStock = true ↔
      0 < b.beginningInventory + b.quantityReceived - b.quantityDispensed ∧
        b.beginningInventory + b.quantityReceived - b.quantityDispensed ≤
          (getStockStatus b cfg).reorderPoint) ∧
    ¬((getStockStatus b cfg).isLowStock = true ∧
      (getStockStatus b cfg).isOutOfStock = true) ∧
    (b.beginningInventory + b.quantityReceived - b.quantityDispensed ≤ 0 →
      (getStockStatus b cfg).isLowStock = false) ∧
    (b.beginningInventory + b.quantityReceived - b.quantityDispensed < 0 →
      (getStockStatus b cfg).isLowStock = false ∧
        (getStockStatus b cfg).isOutOfStock = false) := by
  refine ⟨?_, ?_, ?_, ?_, ?_⟩
  · simp [getStockStatus]
  · simp [getStockStatus]
  · rintro ⟨hlow, hout⟩
    simp only [getStockStatus, Bool.and_eq_true, decide_eq_true_eq] at hlow hout
    exact absurd hout (ne_of_gt hlow.1)
  · intro h
    simp [getStockStatus, not_lt.mpr h]
  · intro h
    constructor
    · simp [getStockStatus, not_lt.mpr h.le]
    · simp [getStockStatus, ne_of_lt h]

/-- Witness for C2: a batch with negative current stock (0 + 0 − 3 = −3) is
classified as neither low-stock nor out-of-stock. -/
theorem C2_stock_classification_witness :
    (getStockStatus
        { beginningInventory := 0, quantityReceived := 0, quantityDispensed := 3,
          daysElapsed := 5, daysUntilExpiry := some 365 }
        DEFAULT_REORDER_CONFIG).isLowStock = false ∧
    (getStockStatus
        { beginningInventory := 0, quantityReceived := 0, quantityDispensed := 3,
          daysElapsed := 5, daysUntilExpiry := some 365 }
        DEFAULT_REORDER_CONFIG).isOutOfStock = false :=
  (C2_stock_classification _ _).2.2.2.2 (by norm_num)

/-- Claim C8. For every batch with `quantityDispensed > 0` and positive
elapsed days, `calculateReorderPoint` is non-decreasing in `leadTimeDays` and
in `safetyStockPercentage`: for two configs that differ only by increasing
one of these parameters, the result with the larger parameter is `≥` the
result with the smaller.  (The config domain is the one the spec declares:
`safetyStockPercentage ∈ [0,1]` and a non-negative lead time; only the lower
bounds are needed.) -/
theorem C8_reorderPoint_monotone (b : InventoryBatch)
    (ltd ltd' ssp ssp' mt : ℚ)
    (hd : 0 < b.quantityDispensed) (he : 0 < b.daysElapsed)
    (hltd : 0 ≤ ltd) (hssp : 0 ≤ ssp) :
    (ltd ≤ ltd' →
      calculateReorderPoint b ⟨ltd, ssp, mt⟩ ≤
        calculateReorderPoint b ⟨ltd', ssp, mt⟩) ∧
    (ssp ≤ ssp' →
      calculateReorderPoint b ⟨ltd, ssp, mt⟩ ≤
        calculateReorderPoint b ⟨ltd, ssp', mt⟩) := by
  have hu : 0 < calculateAverageDailyUsage b none := averageDailyUsage_pos b hd he
  have hne : calculateAverageDailyUsage b none ≠ 0 := ne_of_gt hu
  set u := calculateAverageDailyUsage b none with hu_def
  constructor
  · intro hL
    rw [calculateReorderPoint_of_usage_ne_zero b _ hne,
      calculateReorderPoint_of_usage_ne_zero b _ hne]
    refine max_le_max ?_ le_rfl
    have h1 : u * ltd ≤ u * ltd' := mul_le_mul_of_nonneg_left hL hu.le
    have h2 : u * ltd * ssp ≤ u * ltd' * ssp :=
      mul_le_mul_of_nonneg_right h1 hssp
    exact_mod_cast Int.ceil_le_ceil (add_le_add h1 h2)
  · intro hS
    rw [calculateReorderPoint_of_usage_ne_zero b _ hne,
      calculateReorderPoint_of_usage_ne_zero b _ hne]
    refine max_le_max ?_ le_rfl
    have h2 : u * ltd * ssp ≤ u * ltd * ssp' :=
      mul_le_mul_of_nonneg_left hS (mul_nonneg hu.le hltd)
    exact_mod_cast Int.ceil_le_ceil (add_le_add le_rfl h2)

/-- Witness for C8: for a batch dispensing 7 units over 2 days, raising the
lead time from 10 to 14 days and raising the safety-stock percentage from
0.1 to 0.3 each give a reorder point at least as large. -/
theorem C8_reorderPoint_monotone_witness :
    calculateReorderPoint
        { beginningInventory := 50, quantityReceived := 0, quantityDispensed := 7,
          daysElapsed := 2, daysUntilExpiry := some 365 }
        ⟨10, 1/10, 20⟩ ≤
      calculateReorderPoint
        { beginningInventory := 50, quantityReceived := 0, quantityDispensed := 7,
          daysElapsed := 2, daysUntilExpiry := some 365 }
        ⟨14, 1/10, 20⟩ ∧
    calculateReorderPoint
        { beginningInventory := 50, quantityReceived := 0, quantityDispensed := 7,
          daysElapsed := 2, daysUntilExpiry := some 365 }
        ⟨10, 1/10, 20⟩ ≤
      calculateReorderPoint
        { beginningInventory := 50, quantityReceived := 0, quantityDispensed := 7,
          daysElapsed := 2, daysUntilExpiry := some 365 }
        ⟨10, 3/10, 20⟩ :=
  ⟨(C8_reorderPoint_monotone _ 10 14 (1/10) (3/10) 20 (by norm_num) (by decide)
      (by norm_num) (by norm_num)).1 (by norm_num),
   (C8_reorderPoint_monotone _ 10 14 (1/10) (3/10) 20 (by norm_num) (by decide)
      (by norm_num) (by norm_num)).2 (by norm_num)⟩

/-- Claim C9. For every batch and config, `calculateReorderQuantity` returns
`0` when the batch is neither low-stock nor out-of-stock; otherwise it
returns `max(ceil(u × leadTimeDays × 2 + u × leadTimeDays ×
safetyStockPercentage), config.minimumThreshold)`, where `u` is the batch's
average daily usage when that usage is positive, and `u = 1` when there is
no dispensing history. -/
theorem C9_reorderQuantity_cases (b : InventoryBatch) (cfg : ReorderPointConfig) :
    ((getStockStatus b cfg).isLowStock = false →
      (getStockStatus b cfg).isOutOfStock = false →
      calculateReorderQuantity b cfg = 0) ∧
    ((getStockStatus b cfg).isLowStock = true ∨
        (getStockStatus b cfg).isOutOfStock = true →
      0 < calculateAverageDailyUsage b none →
      calculateReorderQuantity b cfg =
        max ((⌈calculateAverageDailyUsage b none * cfg.leadTimeDays * 2 +
            calculateAverageDailyUsage b none * cfg.leadTimeDays *
              cfg.safetyStockPercentage⌉ : ℤ) : ℚ)
          cfg.minimumThreshold) ∧
    ((getStockStatus b cfg).isLowStock = true ∨
        (getStockStatus b cfg).isOutOfStock = true →
      b.quantityDispensed = 0 →
      calculateReorderQuantity b cfg =
        max ((⌈(1 : ℚ) * cfg.leadTimeDays * 2 +
            (1 : ℚ) * cfg.leadTimeDays * cfg.safetyStockPercentage⌉ : ℤ) : ℚ)
          cfg.minimumThreshold) := by
  have havg : (getStockStatus b cfg).avgDailyUsage = calculateAverageDailyUsage b none := by
    simp [getStockStatus]
  refine ⟨fun hlow hout => ?_, fun hneed hpos => ?_, fun hneed hdisp => ?_⟩
  · simp [calculateReorderQuantity, hlow, hout]
  · have hcond : ¬ (!(getStockStatus b cfg).isLowStock &&
        !(getStockStatus b cfg).isOutOfStock) = true := by
      rcases hneed with h | h <;> simp [h]
    rw [calculateReorderQuantity, if_neg hcond]
    rw [havg, if_pos hpos]
  · have hcond : ¬ (!(getStockStatus b cfg).isLowStock &&
        !(getStockStatus b cfg).isOutOfStock) = true := by
      rcases hneed with h | h <;> simp [h]
    rw [calculateReorderQuantity, if_neg hcond]
    rw [havg, averageDailyUsage_of_dispensed_eq_zero b hdisp, if_neg (lt_irrefl (0 : ℚ))]

/-- Witness for C9: a never-dispensed batch holding 5 units is low-stock
under the default config, and its suggested reorder quantity is computed
with usage floored to 1/day: `max(ceil(1·14·2 + 1·14·0.3), 20)`. -/
theorem C9_reorderQuantity_cases_witness :
    calculateReorderQuantity
        { beginningInventory := 5, quantityReceived := 0, quantityDispensed := 0,
          daysElapsed := 10, daysUntilExpiry := some 365 }
        DEFAULT_REORDER_CONFIG =
      max ((⌈(1 : ℚ) * DEFAULT_REORDER_CONFIG.leadTimeDays * 2 +
          (1 : ℚ) * DEFAULT_REORDER_CONFIG.leadTimeDays *
            DEFAULT_REORDER_CONFIG.safetyStockPercentage⌉ : ℤ) : ℚ)
        DEFAULT_REORDER_CONFIG.minimumThreshold :=
  (C9_reorderQuantity_cases _ _).2.2
    (Or.inl (by norm_num [getStockStatus, calculateReorderPoint,
      calculateAverageDailyUsage, DEFAULT_REORDER_CONFIG]))
    (by norm_num)

/-- Claim C3. For every batch processed by the alert generator, at most one
expiry-type alert is emitted, determined by `daysUntilExpiry`: `expired`
(high) when it is negative, `critical` (high) for 0..30, `nearExpiry`
(medium) for 31..180, and none beyond 180 or when the date failed to parse.
Expiry alerts depend only on `daysUntilExpiry`, hence are emitted regardless
of the batch's stock level. -/
theorem C3_expiry_bucket_alerts (item : InventoryBatch) :
    (alertsForItem item).countP
        (fun a => decide (a.alertType ≠ AlertType.lowStock)) ≤ 1 ∧
    (∀ d : ℤ, item.daysUntilExpiry = some d →
      (d < 0 →
        expiryAlertsOf item = [(AlertType.expired, Severity.high, some d)]) ∧
      (0 ≤ d → d ≤ 30 →
        expiryAlertsOf item = [(AlertType.critical, Severity.high, some d)]) ∧
      (30 < d → d ≤ 180 →
        expiryAlertsOf item = [(AlertType.nearExpiry, Severity.medium, some d)]) ∧
      (180 < d → expiryAlertsOf item = [])) ∧
    (item.daysUntilExpiry = none → expiryAlertsOf item = []) ∧
    (∀ item' : InventoryBatch, item'.daysUntilExpiry = item.daysUntilExpiry →
      expiryAlertsOf item' = expiryAlertsOf item) := by
  refine ⟨?_, fun d hd => ?_, fun hn => ?_, fun item' hEq => ?_⟩
  · have hc : (alertsForItem item).countP
        (fun a => decide (a.alertType ≠ AlertType.lowStock)) =
          (expiryAlertsOf item).length := by
      rw [List.countP_eq_length_filter, expiryAlertsOf, List.length_map]
    rw [hc, expiryAlertsOf_eq]
    rcases item.daysUntilExpiry with _ | d
    · simp
    · dsimp only
      split_ifs <;> simp
  · rw [expiryAlertsOf_eq, hd]
    dsimp only
    refine ⟨fun h1 => ?_, fun h0 h2 => ?_, fun h30 h3 => ?_, fun h180 => ?_⟩
    · rw [if_pos h1]
    · rw [if_neg (by omega), if_pos h2]
    · rw [if_neg (by omega), if_neg (by omega), if_pos h3]
    · rw [if_neg (by omega), if_neg (by omega), if_neg (by omega)]
  · rw [expiryAlertsOf_eq, hn]
  · rw [expiryAlertsOf_eq, expiryAlertsOf_eq, hEq]

/-- Witness for C3: a batch that expired 5 days ago yields exactly the
`expired`/`high` expiry alert. -/
theorem C3_expiry_bucket_alerts_witness :
    expiryAlertsOf
        { beginningInventory := 40, quantityReceived := 0, quantityDispensed := 0,
          daysElapsed := 10, daysUntilExpiry := some (-5) } =
      [(AlertType.expired, Severity.high, some (-5))] :=
  ((C3_expiry_bucket_alerts _).2.1 (-5) rfl).1 (by decide)

/-- Claim C4. For every batch, a `lowStock` alert is emitted exactly when the
current stock is positive and at most the (default-config) reorder point,
with severity `high` when the stock is below half the reorder point and
`medium` otherwise; and the spec's "no history, low stock" scenario batch
(5 on hand, never dispensed, received 10 days ago, expiring a year out)
produces `avgDailyUsage = 0`, `reorderPoint = 20`, `currentStock = 5`, and
exactly one generated alert: `lowStock` with severity `high`. -/
theorem C4_lowStock_alert_rule (item : InventoryBatch) :
    ((alertsForItem item).filter (fun a => decide (a.alertType = AlertType.lowStock)) =
      (if 0 < item.beginningInventory + item.quantityReceived - item.quantityDispensed ∧
          item.beginningInventory + item.quantityReceived - item.quantityDispensed ≤
            calculateReorderPoint item DEFAULT_REORDER_CONFIG then
        [{ item := item, alertType := AlertType.lowStock,
           severity :=
             if item.beginningInventory + item.quantityReceived - item.quantityDispensed <
                 calculateReorderPoint item DEFAULT_REORDER_CONFIG * (1/2) then
               Severity.high
             else Severity.medium,
           daysUntilExpiry := none,
           stockLevel :=
             item.beginningInventory + item.quantityReceived - item.quantityDispensed }]
       else [])) ∧
    (calculateAverageDailyUsage noHistoryLowStockBatch none = 0 ∧
      calculateReorderPoint noHistoryLowStockBatch DEFAULT_REORDER_CONFIG = 20 ∧
      noHistoryLowStockBatch.beginningInventory +
          noHistoryLowStockBatch.quantityReceived -
          noHistoryLowStockBatch.quantityDispensed = 5 ∧
      generateBranchAlerts [[noHistoryLowStockBatch]] =
        [{ item := noHistoryLowStockBatch, alertType := AlertType.lowStock,
           severity := Severity.high, daysUntilExpiry := none, stockLevel := 5 }]) := by
  constructor
  · simp only [alertsForItem, List.filter_append, getStockStatus_reorderPoint]
    split_ifs <;> simp_all [isLowStock_eq_true_iff]
  · refine ⟨?_, ?_, ?_, ?_⟩
    · norm_num [calculateAverageDailyUsage, noHistoryLowStockBatch]
    · norm_num [calculateReorderPoint, calculateAverageDailyUsage,
        noHistoryLowStockBatch, DEFAULT_REORDER_CONFIG]
    · norm_num [noHistoryLowStockBatch]
    · norm_num [generateBranchAlerts, sortAlerts, List.mergeSort, alertsForItem,
        isLowStock, getStockStatus, calculateReorderPoint, calculateAverageDailyUsage,
        noHistoryLowStockBatch, DEFAULT_REORDER_CONFIG]

/-- Claim C7. For every branch list, any alert generated from a batch whose
`expirationDate` failed to parse (`daysUntilExpiry = NaN`, modelled `none`)
is a `lowStock` alert — the NaN never satisfies an expiry-bucket comparison,
so no expiry alert is emitted for such a batch; and a low-stock alert can
still be emitted for it, as the NaN-expiry scenario batch shows.  (In the
embedding every function is total, so the generator cannot throw.) -/
theorem C7_nan_expiry_no_expiry_alert (branchData : List (List InventoryBatch)) :
    (∀ a ∈ generateBranchAlerts branchData, a.item.daysUntilExpiry = none →
      a.alertType = AlertType.lowStock) ∧
    generateBranchAlerts [[nanExpiryBatch]] =
      [{ item := nanExpiryBatch, alertType := AlertType.lowStock,
         severity := Severity.high, daysUntilExpiry := none, stockLevel := 5 }] := by
  constructor
  · intro a ha hnan
    have ha' : a ∈ (branchData.map
        (fun inventory => (inventory.map alertsForItem).flatten)).flatten :=
      (List.mergeSort_perm _ alertLE).mem_iff.mp ha
    rcases List.mem_flatten.mp ha' with ⟨l1, hl1, hal1⟩
    rcases List.mem_map.mp hl1 with ⟨inventory, hinv, rfl⟩
    rcases List.mem_flatten.mp hal1 with ⟨l2, hl2, hal2⟩
    rcases List.mem_map.mp hl2 with ⟨item, hitem, rfl⟩
    have hident : a.item = item := item_of_mem_alertsForItem item a hal2
    rw [hident] at hnan
    exact alertType_of_mem_alertsForItem_none item hnan a hal2
  · norm_num [generateBranchAlerts, sortAlerts, List.mergeSort, alertsForItem,
      isLowStock, getStockStatus, calculateReorderPoint, calculateAverageDailyUsage,
      nanExpiryBatch, DEFAULT_REORDER_CONFIG]

/-- Witness for C7: the alert the generator emits for the NaN-expiry
scenario batch is indeed of type `lowStock`. -/
theorem C7_nan_expiry_no_expiry_alert_witness :
    ({ item := nanExpiryBatch, alertType := AlertType.lowStock,
       severity := Severity.high, daysUntilExpiry := none,
       stockLevel := 5 } : BranchAlert).alertType = AlertType.lowStock :=
  (C7_nan_expiry_no_expiry_alert [[nanExpiryBatch]]).1 _
    (by
      rw [(C7_nan_expiry_no_expiry_alert [[nanExpiryBatch]]).2]
      exact List.mem_singleton.mpr rfl)
    rfl

/-- Claim C5. The aggregated cross-branch alert list is sorted by severity
rank (`high < medium < low`), then type rank
(`expired < critical < lowStock < nearExpiry`); the sort is stable (alerts
tying on both keys keep their relative input order, stated as: filtering
any key class commutes with sorting, which also shows the output is a
permutation of the input); and on four alerts with severities
`[medium, high, high, low]` and types
`[lowStock, expired, critical, nearExpiry]` the output is the two `high`
alerts (`expired` then `critical`), then `medium`, then `low`. -/
theorem C5_sorted_stable (branchData : List (List InventoryBatch))
    (l : List BranchAlert) :
    (generateBranchAlerts branchData).Pairwise (fun a b => alertLE a b = true) ∧
    List.Perm (sortAlerts l) l ∧
    (∀ (sev : Severity) (ty : AlertType),
      (sortAlerts l).filter
          (fun a => decide (a.severity = sev) && decide (a.alertType = ty)) =
        l.filter
          (fun a => decide (a.severity = sev) && decide (a.alertType = ty))) ∧
    sortAlerts
        [sortExampleAlert AlertType.lowStock Severity.medium,
         sortExampleAlert AlertType.expired Severity.high,
         sortExampleAlert AlertType.critical Severity.high,
         sortExampleAlert AlertType.nearExpiry Severity.low] =
      [sortExampleAlert AlertType.expired Severity.high,
       sortExampleAlert AlertType.critical Severity.high,
       sortExampleAlert AlertType.lowStock Severity.medium,
       sortExampleAlert AlertType.nearExpiry Severity.low] := by
  refine ⟨?_, ?_, fun sev ty => ?_, ?_⟩
  · exact List.sorted_mergeSort alertLE_trans alertLE_total _
  · exact List.mergeSort_perm l alertLE
  · have hpair : (l.filter
        (fun a => decide (a.severity = sev) && decide (a.alertType = ty))).Pairwise
          (fun a b => alertLE a b = true) := by
      apply List.pairwise_of_forall_mem_list
      intro a ha b hb
      have ha' := List.of_mem_filter ha
      have hb' := List.of_mem_filter hb
      simp only [Bool.and_eq_true, decide_eq_true_eq] at ha' hb'
      simp [alertLE, ha'.1, ha'.2, hb'.1, hb'.2]
    have hsub : List.Sublist
        (l.filter (fun a => decide (a.severity = sev) && decide (a.alertType = ty)))
        (l.mergeSort alertLE) :=
      List.sublist_mergeSort alertLE_trans alertLE_total hpair (List.filter_sublist l)
    have hidem : (l.filter
        (fun a => decide (a.severity = sev) && decide (a.alertType = ty))).filter
          (fun a => decide (a.severity = sev) && decide (a.alertType = ty)) =
        l.filter (fun a => decide (a.severity = sev) && decide (a.alertType = ty)) :=
      List.filter_eq_self.mpr (fun a ha => (List.mem_filter.mp ha).2)
    have hsub2 : List.Sublist
        (l.filter (fun a => decide (a.severity = sev) && decide (a.alertType = ty)))
        ((l.mergeSort alertLE).filter
          (fun a => decide (a.severity = sev) && decide (a.alertType = ty))) := by
      have h := hsub.filter
        (fun a => decide (a.severity = sev) && decide (a.alertType = ty))
      rwa [hidem] at h
    have hperm : List.Perm
        ((l.mergeSort alertLE).filter
          (fun a => decide (a.severity = sev) && decide (a.alertType = ty)))
        (l.filter (fun a => decide (a.severity = sev) && decide (a.alertType = ty))) :=
      (List.mergeSort_perm l alertLE).filter _
    exact (hsub2.eq_of_length hperm.length_eq.symm).symm
  · simp [sortAlerts, List.mergeSort, sortExampleAlert, alertLE, severityOrder, typeOrder]

end Mediflow
